import Mathlib

/-!
Verification of the Media-bias news ingestion and analysis core.

This file shallowly embeds the parts of the Python source that the checked
claims are about, and proves or refutes each claim over the embedding:

  - models/article.py                    : Article, BiasScore, content hashing
  - services/article_storage_service.py  : deduplicating store, batch store
  - services/bias_analyzer.py            : five-score bias pipeline
  - services/sentiment_analyzer.py       : sentiment and emotional intensity
  - services/political_bias_detector.py  : political bias scoring
  - services/factual_opinion_classifier.py : factual vs opinion scoring
  - services/language_detector.py        : Bengali/English detection
  - services/text_preprocessor.py        : tokenizers
  - services/article_comparator.py       : story id generation
  - services/content_similarity_matcher.py : pairwise similarity
  - scrapers/base_scraper.py             : scrape loop error containment
  - scrapers/scraper_manager.py          : per-source health accounting

Modelling conventions: Python floats become rationals (the checked claims are
clamp/guard-structural or exact-value facts that hold identically); datetimes
become integers (epoch seconds) or a year/month/day record where only the date
is used; MongoDB object ids become a natural-number counter; functions that the
platform supplies and that are not part of this repository (math.sqrt,
math.log, the process-seeded builtin hash) are passed in as explicit function
parameters, so every theorem quantifies over them.
-/

/-! ## SHA-256 over byte lists (hashlib.sha256, as used by models/article.py)

A byte is a Nat below 256; 32-bit words are Nats reduced mod 2 ^ 32. The round
constants and initial state are the FIPS 180-4 tables, written in decimal. -/

def add32 (a b : Nat) : Nat := (a + b) % 4294967296

def rotr32 (n x : Nat) : Nat := ((x >>> n) ||| (x <<< (32 - n))) % 4294967296

def shr32 (n x : Nat) : Nat := x >>> n

def xor3 (a b c : Nat) : Nat := (a ^^^ b) ^^^ c

def bigSigma0 (x : Nat) : Nat := xor3 (rotr32 2 x) (rotr32 13 x) (rotr32 22 x)

def bigSigma1 (x : Nat) : Nat := xor3 (rotr32 6 x) (rotr32 11 x) (rotr32 25 x)

def smallSigma0 (x : Nat) : Nat := xor3 (rotr32 7 x) (rotr32 18 x) (shr32 3 x)

def smallSigma1 (x : Nat) : Nat := xor3 (rotr32 17 x) (rotr32 19 x) (shr32 10 x)

def chFn (x y z : Nat) : Nat := (x &&& y) ^^^ ((x ^^^ 4294967295) &&& z)

def majFn (x y z : Nat) : Nat := xor3 (x &&& y) (x &&& z) (y &&& z)

def sha256K : List Nat :=
  [1116352408, 1899447441, 3049323471, 3921009573, 961987163,
   1508970993, 2453635748, 2870763221, 3624381080, 310598401,
   607225278, 1426881987, 1925078388, 2162078206, 2614888103,
   3248222580, 3835390401, 4022224774, 264347078, 604807628,
   770255983, 1249150122, 1555081692, 1996064986, 2554220882,
   2821834349, 2952996808, 3210313671, 3336571891, 3584528711,
   113926993, 338241895, 666307205, 773529912, 1294757372,
   1396182291, 1695183700, 1986661051, 2177026350, 2456956037,
   2730485921, 2820302411, 3259730800, 3345764771, 3516065817,
   3600352804, 4094571909, 275423344, 430227734, 506948616,
   659060556, 883997877, 958139571, 1322822218, 1537002063,
   1747873779, 1955562222, 2024104815, 2227730452, 2361852424,
   2428436474, 2756734187, 3204031479, 3329325298]

/-- Message padding: append 0x80, zero bytes until 56 mod 64, then the bit
length as 8 big-endian bytes. -/
def sha256Pad (msg : List Nat) : List Nat :=
  let len := msg.length
  let bitLen := len * 8
  let padZeros := (119 - len % 64) % 64
  msg ++ [0x80] ++ List.replicate padZeros 0 ++
    [(bitLen >>> 56) % 256, (bitLen >>> 48) % 256, (bitLen >>> 40) % 256,
     (bitLen >>> 32) % 256, (bitLen >>> 24) % 256, (bitLen >>> 16) % 256,
     (bitLen >>> 8) % 256, bitLen % 256]

/-- Big-endian grouping of bytes into 32-bit words. -/
def bytesToWords : List Nat → List Nat
  | b0 :: b1 :: b2 :: b3 :: rest =>
      ((b0 <<< 24) ||| (b1 <<< 16) ||| (b2 <<< 8) ||| b3) :: bytesToWords rest
  | _ => []

/-- Split a list into 64-byte chunks; the fuel argument only forces structural
termination and is always called with at least the list length. -/
def chunks64F : Nat → List Nat → List (List Nat)
  | _, [] => []
  | 0, _ => []
  | fuel + 1, l => l.take 64 :: chunks64F fuel (l.drop 64)

/-- Split a padded message into 64-byte chunks. -/
def chunks64 (l : List Nat) : List (List Nat) := chunks64F l.length l

/-- Extend a 16-word schedule by n further words. -/
def extendSchedule (w : List Nat) : Nat → List Nat
  | 0 => w
  | n + 1 =>
    let v := extendSchedule w n
    let t := v.length
    v ++ [add32 (add32 (smallSigma1 (v.getD (t - 2) 0)) (v.getD (t - 7) 0))
            (add32 (smallSigma0 (v.getD (t - 15) 0)) (v.getD (t - 16) 0))]

structure Hash8 where
  a : Nat
  b : Nat
  c : Nat
  d : Nat
  e : Nat
  f : Nat
  g : Nat
  h : Nat

def sha256H0 : Hash8 :=
  ⟨1779033703, 3144134277, 1013904242, 2773480762,
   1359893119, 2600822924, 528734635, 1541459225⟩

def compressStep (st : Hash8) (wk : Nat × Nat) : Hash8 :=
  let t1 := add32 st.h (add32 (bigSigma1 st.e)
    (add32 (chFn st.e st.f st.g) (add32 wk.1 wk.2)))
  let t2 := add32 (bigSigma0 st.a) (majFn st.a st.b st.c)
  ⟨add32 t1 t2, st.a, st.b, st.c, add32 st.d t1, st.e, st.f, st.g⟩

def processChunk (hv : Hash8) (chunk : List Nat) : Hash8 :=
  let w := extendSchedule (bytesToWords chunk) 48
  let st := (w.zip sha256K).foldl compressStep hv
  ⟨add32 hv.a st.a, add32 hv.b st.b, add32 hv.c st.c, add32 hv.d st.d,
   add32 hv.e st.e, add32 hv.f st.f, add32 hv.g st.g, add32 hv.h st.h⟩

def sha256Words (msg : List Nat) : List Nat :=
  let hv := (chunks64 (sha256Pad msg)).foldl processChunk sha256H0
  [hv.a, hv.b, hv.c, hv.d, hv.e, hv.f, hv.g, hv.h]

/-- The lowercase hex digit for a nibble (48 is the code of the zero digit,
87 + 10 the code of the letter a). -/
def hexDigitChar (n : Nat) : Char :=
  if n < 10 then Char.ofNat (48 + n) else Char.ofNat (87 + n)

def wordToHex (w : Nat) : List Char :=
  (List.range 8).map (fun i => hexDigitChar ((w >>> ((7 - i) * 4)) &&& 15))

/-- The lowercase hex digest of a byte-list message (hashlib hexdigest). -/
def sha256Hex (msg : List Nat) : String :=
  ⟨(sha256Words msg).flatMap wordToHex⟩

/-- UTF-8 encoding of one unicode code point. -/
def utf8Char (c : Char) : List Nat :=
  let n := c.toNat
  if n < 0x80 then [n]
  else if n < 0x800 then
    [0xC0 ||| (n >>> 6), 0x80 ||| (n &&& 0x3F)]
  else if n < 0x10000 then
    [0xE0 ||| (n >>> 12), 0x80 ||| ((n >>> 6) &&& 0x3F), 0x80 ||| (n &&& 0x3F)]
  else
    [0xF0 ||| (n >>> 18), 0x80 ||| ((n >>> 12) &&& 0x3F),
     0x80 ||| ((n >>> 6) &&& 0x3F), 0x80 ||| (n &&& 0x3F)]

/-- UTF-8 encoding of a string (str.encode in Python). -/
def utf8Encode (s : String) : List Nat := s.data.flatMap utf8Char

/-- FIPS 180-4 test vector, validating the SHA-256 embedding. -/
theorem sha256Hex_abc :
    sha256Hex (utf8Encode "abc") =
      "ba7816bf8f01cfea414140de5dae2223b00361a396177a9cb410ff61f20015ad" := by
  decide

/-! ## Data model (models/article.py) -/

/-- Calendar date; publication timestamps are compared chronologically and only
their date part is ever formatted (strftime with the Y m d fields). -/
structure DateYMD where
  year : Nat
  month : Nat
  day : Nat
deriving DecidableEq

/-- Chronological (lexicographic) strict order on dates, the order datetime
comparison induces on the date part. -/
def DateYMD.lt (d1 d2 : DateYMD) : Bool :=
  d1.year < d2.year ||
    (d1.year = d2.year &&
      (d1.month < d2.month || (d1.month = d2.month && d1.day < d2.day)))

/-- The five bias metrics plus the analysis timestamp, as in the BiasScore
dataclass. Scores are rationals standing for the Python floats; analyzedAt is
epoch seconds. -/
structure BiasScore where
  sentimentScore : ℚ
  politicalBiasScore : ℚ
  emotionalLanguageScore : ℚ
  factualVsOpinionScore : ℚ
  overallBiasScore : ℚ
  analyzedAt : Int
deriving DecidableEq

/-- The Article dataclass. The contentHash field is a plain String because
post-init guarantees it is always populated; construction goes through
mkArticle below, which mirrors that dance. scrapedAt is epoch seconds. -/
structure Article where
  url : String
  title : String
  content : String
  author : Option String
  publicationDate : DateYMD
  source : String
  scrapedAt : Int
  language : String
  id : Option String
  contentHash : String
  biasScores : Option BiasScore
  topics : Option (List String)
deriving DecidableEq

/-- The private generate-content-hash method: SHA-256 hex digest of the UTF-8
bytes of the f-string "{title}{content}{source}". -/
def generateContentHash (title content source : String) : String :=
  sha256Hex (utf8Encode (title ++ content ++ source))

/-- Dataclass construction followed by post-init: when no content hash is
passed, it is generated from title, content and source. -/
def mkArticle (url title content : String) (author : Option String)
    (publicationDate : DateYMD) (source : String) (scrapedAt : Int)
    (language : String) (id : Option String) (contentHash : Option String)
    (biasScores : Option BiasScore) (topics : Option (List String)) : Article :=
  { url := url, title := title, content := content, author := author,
    publicationDate := publicationDate, source := source,
    scrapedAt := scrapedAt, language := language, id := id,
    contentHash :=
      match contentHash with
      | some h => h
      | none => generateContentHash title content source,
    biasScores := biasScores, topics := topics }

/-! ## Article store (services/article_storage_service.py)

The MongoDB collection becomes a list of stored documents in insertion order
(find-one returns the first match in that order) and object ids become a
natural counter. Topic extraction only fills the topics field of the stored
document and plays no role in deduplication, id assignment or batch counting,
so the stored article is kept as passed. The DuplicateKeyError branch is the
concurrency fallback of the same uniqueness checks and the generic exception
branch is database unavailability; the sequential semantics the claims are
about is the pure path below. -/

structure StoredDoc where
  docId : Nat
  article : Article
deriving DecidableEq

structure StoreState where
  docs : List StoredDoc
  nextId : Nat
deriving DecidableEq

def findByUrl (s : StoreState) (u : String) : Option StoredDoc :=
  s.docs.find? (fun d => d.article.url == u)

def findByHash (s : StoreState) (h : String) : Option StoredDoc :=
  s.docs.find? (fun d => d.article.contentHash == h)

/-- store-article: check by url first, then by content hash, else insert;
returns the resulting id and the new state. -/
def storeArticle (s : StoreState) (a : Article) : Nat × StoreState :=
  match findByUrl s a.url with
  | some d => (d.docId, s)
  | none =>
    match findByHash s a.contentHash with
    | some d => (d.docId, s)
    | none =>
      (s.nextId, ⟨s.docs ++ [⟨s.nextId, a⟩], s.nextId + 1⟩)

/-- The recently-inserted heuristic of the batch path: look the id up and test
whether the scrape timestamp of the found document is less than 60 seconds
before now. -/
def isRecentlyInserted (s : StoreState) (id : Nat) (now : Int) : Bool :=
  match s.docs.find? (fun d => d.docId == id) with
  | some d => decide (now - d.article.scrapedAt < 60)
  | none => false

structure BatchResult where
  stored : Nat
  duplicates : Nat
  errors : Nat
  storedIds : List Nat
  duplicateIds : List Nat
deriving DecidableEq

/-- store-articles-batch: store each article in order, then classify the
returned id as stored or duplicate using the recently-inserted heuristic.
Store-article never fails on the pure path, so the errors counter stays 0. -/
def storeArticlesBatch (s : StoreState) (arts : List Article) (now : Int) :
    BatchResult × StoreState :=
  arts.foldl
    (fun acc a =>
      let r := acc.1
      let res := storeArticle acc.2 a
      if isRecentlyInserted res.2 res.1 now then
        ({ r with stored := r.stored + 1, storedIds := r.storedIds ++ [res.1] },
         res.2)
      else
        ({ r with duplicates := r.duplicates + 1
                  duplicateIds := r.duplicateIds ++ [res.1] }, res.2))
    (⟨0, 0, 0, [], []⟩, s)

/-- Claim C1: store-article checks uniqueness first by url (returning the
existing id), else by content hash (returning the existing id), else inserts
under a fresh id; consequently putting the same article twice returns the same
id both times and the second put changes nothing. -/
theorem storeArticle_order_and_idempotent (s : StoreState) (a : Article) :
    (storeArticle s a =
      match findByUrl s a.url with
      | some d => (d.docId, s)
      | none =>
        match findByHash s a.contentHash with
        | some d => (d.docId, s)
        | none => (s.nextId, ⟨s.docs ++ [⟨s.nextId, a⟩], s.nextId + 1⟩))
    ∧ storeArticle (storeArticle s a).2 a = storeArticle s a := by
  refine ⟨rfl, ?_⟩
  cases hu : findByUrl s a.url with
  | some d => simp [storeArticle, hu]
  | none =>
    cases hh : findByHash s a.contentHash with
    | some d => simp [storeArticle, hu, hh]
    | none =>
      have hnew : findByUrl ⟨s.docs ++ [⟨s.nextId, a⟩], s.nextId + 1⟩ a.url
          = some ⟨s.nextId, a⟩ := by
        unfold findByUrl at hu ⊢
        simp [List.find?_append, hu]
      simp [storeArticle, hu, hh, hnew]

/-- A concrete article for evaluating the batch path: scraped at time 0 with an
explicitly supplied content hash. -/
def batchDemoArticle : Article :=
  mkArticle "http://x/1" "T" "C" none ⟨2024, 1, 1⟩ "S" 0 "english" none
    (some "h") none none

/-- Claim C2 fails on the code: putting the same article three times into a
fresh store at the time it was scraped reports stored = 3 and duplicates = 0,
because the batch path classifies by the recently-inserted time heuristic
(scraped within the last minute) instead of by whether the put inserted; the
claim and spec require stored = 1 and duplicates = 2. -/
theorem storeArticlesBatch_triple_miscounts :
    (storeArticlesBatch ⟨[], 0⟩
        [batchDemoArticle, batchDemoArticle, batchDemoArticle] 0).1.stored = 3
    ∧ (storeArticlesBatch ⟨[], 0⟩
        [batchDemoArticle, batchDemoArticle, batchDemoArticle] 0).1.duplicates
      = 0 := by
  decide

/-- Claim C3: an article constructed without an explicit content hash gets the
SHA-256 hex digest of the UTF-8 bytes of title, content and source concatenated
in that order with no separators. -/
theorem contentHash_is_sha256_of_concat (url title content : String)
    (author : Option String) (pd : DateYMD) (source : String) (sc : Int)
    (lang : String) (id : Option String) (bs : Option BiasScore)
    (tp : Option (List String)) :
    (mkArticle url title content author pd source sc lang id none bs
        tp).contentHash
      = sha256Hex (utf8Encode title ++ utf8Encode content ++ utf8Encode source)
    := by
  show generateContentHash title content source = _
  unfold generateContentHash utf8Encode
  simp [List.flatMap_append]

/-! ## Text utilities shared by the analyzers

Python string and regex semantics, restricted to the character repertoire this
system processes (ASCII plus the Bengali Unicode block). Specifically:
str.lower is modelled on ASCII letters (Bengali has no case); the regex word
class is modelled as ASCII alphanumerics, underscore, and the Bengali block,
approximating the Unicode word category on the scripts at hand; the regex digit
class is ASCII digits plus Bengali digits. Every claim proved below is
insensitive to the exact extent of these classes. -/

def pyIsSpace (c : Char) : Bool :=
  c.isWhitespace || c = '\x0b' || c = '\x0c'

def pyLower (s : String) : String := ⟨s.data.map Char.toLower⟩

def isBengaliBlock (c : Char) : Bool :=
  0x0980 ≤ c.toNat && c.toNat ≤ 0x09FF

def isBengaliDigit (c : Char) : Bool :=
  0x09E6 ≤ c.toNat && c.toNat ≤ 0x09EF

def isPyWordChar (c : Char) : Bool :=
  c.isAlphanum || c = '_' || isBengaliBlock c

def pyIsDigitChar (c : Char) : Bool := c.isDigit || isBengaliDigit c

/-- Unicode alphabetic test (str.isalpha), on this character repertoire: ASCII
letters plus the Bengali block without its digits. -/
def pyIsAlphaChar (c : Char) : Bool :=
  c.isAlpha || (isBengaliBlock c && !isBengaliDigit c)

/-- str.strip: drop leading and trailing whitespace. -/
def pyStrip (s : String) : String :=
  ⟨((s.data.dropWhile pyIsSpace).reverse.dropWhile pyIsSpace).reverse⟩

/-- Prefix test on character lists. -/
def startsWithCh : List Char → List Char → Bool
  | [], _ => true
  | _, [] => false
  | p :: ps, c :: cs => p = c && startsWithCh ps cs

def hasInfixCh (needle : List Char) : List Char → Bool
  | [] => needle.isEmpty
  | c :: cs => startsWithCh needle (c :: cs) || hasInfixCh needle cs

/-- Substring containment (the Python in operator on strings). -/
def pyContains (hay needle : String) : Bool :=
  hasInfixCh needle.data hay.data

/-- The Python min builtin on two numbers (ties keep the first argument). -/
def pyMin (a b : ℚ) : ℚ := if a ≤ b then a else b

/-- The Python max builtin on two numbers (ties keep the first argument). -/
def pyMax (a b : ℚ) : ℚ := if b ≤ a then a else b

/-- The Python abs builtin. -/
def pyAbs (a : ℚ) : ℚ := if a < 0 then -a else a

def collapseWsGo : Bool → List Char → List Char
  | _, [] => []
  | prevSpace, c :: rest =>
    if pyIsSpace c then
      if prevSpace then collapseWsGo true rest
      else ' ' :: collapseWsGo true rest
    else c :: collapseWsGo false rest

/-- Replace every maximal whitespace run by a single space, the effect of
re.sub on a one-or-more whitespace class. -/
def collapseWs (s : String) : String := ⟨collapseWsGo false s.data⟩

def collapseRunsGo (target : Char) : Bool → List Char → List Char
  | _, [] => []
  | inRun, c :: rest =>
    if c = target then
      if inRun then collapseRunsGo target true rest
      else c :: collapseRunsGo target true rest
    else c :: collapseRunsGo target false rest

/-- Replace every maximal run of the target character by a single copy, the
effect of re.sub on a two-or-more repetition of it. -/
def collapseRuns (target : Char) (s : String) : String :=
  ⟨collapseRunsGo target false s.data⟩

/-- The curly quote and accent characters both preprocessors fold to a straight
double quote. -/
def quoteClassChars : List Char := ['“', '”', '‘', '’', '`', '´']

/-- Em dash, en dash and the minus sign, folded to a hyphen. -/
def dashClassChars : List Char := ['—', '–', '−']

def mapCharClass (cls : List Char) (repl : Char) (s : String) : String :=
  ⟨s.data.map (fun c => if cls.contains c then repl else c)⟩

/-- Split into maximal runs of characters that are not delimiters (the effect
of findall on a negated character class). -/
def runsSplitGo (delim : Char → Bool) : List Char → List Char → List String
  | acc, [] => if acc.isEmpty then [] else [⟨acc.reverse⟩]
  | acc, c :: rest =>
    if delim c then
      if acc.isEmpty then runsSplitGo delim [] rest
      else (⟨acc.reverse⟩ : String) :: runsSplitGo delim [] rest
    else runsSplitGo delim (c :: acc) rest

/-- str.split with no argument: split on whitespace runs, dropping empties. -/
def pySplitWs (s : String) : List String := runsSplitGo pyIsSpace [] s.data

/-! ## Text preprocessors (services/text_preprocessor.py) -/

/-- English preprocessing: lowercase, strip and collapse whitespace, fold curly
quotes and dashes, collapse repeated sentence punctuation, strip. -/
def preprocessEnglishText (text : String) : String :=
  if text = "" then "" else
  let t := pyLower text
  let t := collapseWs (pyStrip t)
  let t := mapCharClass quoteClassChars '"' t
  let t := mapCharClass dashClassChars '-' t
  let t := collapseRuns '.' t
  let t := collapseRuns '!' t
  let t := collapseRuns '?' t
  pyStrip t

/-- English tokenization: maximal ASCII-letter runs whose neighbours are not
word characters (the word-boundary anchored letter regex), keeping tokens
longer than one character. The accumulator holds the current letter run
reversed; runOk records whether the character before the run was a non-word
character or the start of the string. -/
def alphaRunsGo : List Char → Bool → List Char → List String
  | runAcc, runOk, [] =>
    if !runAcc.isEmpty && runOk then [⟨runAcc.reverse⟩] else []
  | runAcc, runOk, c :: rest =>
    if c.isAlpha then alphaRunsGo (c :: runAcc) runOk rest
    else
      (if !runAcc.isEmpty && runOk && !isPyWordChar c
       then [(⟨runAcc.reverse⟩ : String)] else [])
      ++ alphaRunsGo [] (!isPyWordChar c) rest

def tokenizeEnglish (text : String) : List String :=
  (alphaRunsGo [] true (preprocessEnglishText text).data).filter
    (fun t => t.length > 1)

def bengaliDigitMap (c : Char) : Char :=
  if c = '০' then '0' else if c = '১' then '1' else if c = '২' then '2'
  else if c = '৩' then '3' else if c = '৪' then '4' else if c = '৫' then '5'
  else if c = '৬' then '6' else if c = '৭' then '7' else if c = '৮' then '8'
  else if c = '৯' then '9' else c

/-- Normalize Bengali punctuation: fold dashes and quotes, put a space after
each sentence-ending mark, collapse whitespace. -/
def normalizeBengaliPunct (s : String) : String :=
  let t := mapCharClass dashClassChars '-' s
  let t := mapCharClass quoteClassChars '"' t
  let t : String := ⟨t.data.flatMap (fun c =>
    if c = '।' || c = '!' || c = '?' then [c, ' '] else [c])⟩
  collapseWs t

/-- Bengali preprocessing: strip and collapse whitespace, map Bengali digits to
ASCII, normalize punctuation, collapse repeated sentence marks, strip. -/
def preprocessBengaliText (text : String) : String :=
  if text = "" then "" else
  let t := collapseWs (pyStrip text)
  let t := ⟨t.data.map bengaliDigitMap⟩
  let t := normalizeBengaliPunct t
  let t := collapseRuns '।' t
  let t := collapseRuns '!' t
  let t := collapseRuns '?' t
  pyStrip t

/-- The delimiter class of the Bengali tokenizer: whitespace, Bengali and Latin
punctuation, brackets, curly quotes, dashes, backslash and hyphen. -/
def isBengaliDelim (c : Char) : Bool :=
  pyIsSpace c ||
    ['।', ',', ';', ':', '!', '?', '(', ')', '[', ']', '{', '}',
     '“', '”', '‘', '’', '—', '–', '\\',
     '-'].contains c

def tokenizeBengali (text : String) : List String :=
  ((runsSplitGo isBengaliDelim [] (preprocessBengaliText text).data).map
    pyStrip).filter (fun t => t.length > 1)

/-! ## Lexicon tables

The word sets, intensity modifier tables, negation sets, political keyword
sets, loaded-phrase patterns, factual and opinion indicator sets and
detector word sets, transcribed from the Python sources. Python sets have
no order and every use below is membership or summation, so each set is
carried as a list (sorted for readability); duplicate set elements in the
source collapse, exactly as the Python set literal does. The loaded-phrase
regex patterns all have the shape word, one-or-more whitespace, word, and
are carried as the pair of words. -/

def bengaliPositiveWords : List String :=
  ["অসাধারণ", "আনন্দ", "আশা", "আশাবাদী",
   "ইতিবাচক", "উন্নতি", "উৎকৃষ্ট", "কৃতজ্ঞতা",
   "খুশি", "গর্ব", "গর্বিত", "চমৎকার",
   "জয়", "দুর্দান্ত", "ধন্যবাদ", "প্রগতি",
   "প্রশংসা", "প্রিয়", "বিজয়", "ভালো",
   "ভালোবাসা", "মমতা", "শান্তি", "সফল",
   "সমৃদ্ধি", "সম্মান", "সম্মানিত", "সাফল্য",
   "সুন্দর", "স্নেহ", "স্বস্তি", "স্বাগত",
   "হাসি"]
def bengaliNegativeWords : List String :=
  ["অন্যায়", "অপমান", "অবিচার", "অসহ্য",
   "আতঙ্ক", "কষ্ট", "কান্না", "ক্রোধ",
   "ক্ষতি", "খারাপ", "ঘৃণা", "চিন্তা",
   "জঘন্য", "দুঃখ", "দুশ্চিন্তা", "ধ্বংস",
   "নিকৃষ্ট", "নিরাশ", "পরাজয়", "বাজে",
   "বিদ্বেষ", "বিপর্যয়", "বিরক্তিকর", "বিষাদ",
   "ব্যথা", "ব্যর্থ", "ভয়", "ভয়ানক",
   "যন্ত্রণা", "রাগ", "লজ্জা", "শত্রুতা",
   "সমস্যা", "হতাশা", "হার"]
def englishPositiveWords : List String :=
  ["achievement", "amazing", "benefit", "calm",
   "care", "excellent", "fantastic", "good",
   "grateful", "great", "happy", "help",
   "honor", "hope", "improvement", "joy",
   "laugh", "love", "optimistic", "outstanding",
   "peace", "positive", "praise", "pride",
   "progress", "proud", "respect", "smile",
   "success", "successful", "support", "thank",
   "victory", "welcome", "win", "wonderful"]
def englishNegativeWords : List String :=
  ["angry", "awful", "bad", "concern",
   "cry", "damage", "defeat", "destroy",
   "disappointed", "disappointing", "dislike", "enemy",
   "fail", "failure", "fear", "frustrated",
   "hate", "horrible", "hurt", "injustice",
   "lose", "loss", "mad", "pain",
   "poor", "problem", "rage", "sad",
   "scared", "shame", "suffer", "terrible",
   "unfair", "upset", "worry", "worst",
   "wrong"]
def intensityModifiersBengali : List (String × Rat) :=
  [("খুব", 1.5), ("অত্যন্ত", 2.0), ("অনেক", 1.3),
   ("বেশ", 1.2), ("যথেষ্ট", 1.1), ("সামান্য", 0.5),
   ("কিছুটা", 0.7), ("একটু", 0.6), ("সম্পূর্ণ", 1.8),
   ("পুরোপুরি", 1.9)]
def intensityModifiersEnglish : List (String × Rat) :=
  [("very", 1.5), ("extremely", 2.0), ("quite", 1.3),
   ("rather", 1.2), ("fairly", 1.1), ("slightly", 0.5),
   ("somewhat", 0.7), ("a bit", 0.6), ("completely", 1.8),
   ("totally", 1.9)]
def negationWordsBengali : List String :=
  ["অভাবে", "ছাড়া", "নয়", "না",
   "নাই", "নেই", "বিনা"]
def negationWordsEnglish : List String :=
  ["neither", "never", "no", "nobody",
   "nor", "not", "nothing", "nowhere",
   "without"]
def politicalBengaliLeft : List String :=
  ["অগ্রগতি", "আওয়ামী লীগ", "উন্নয়ন", "গণতন্ত্র",
   "জনগণের সেবা", "জয় বাংলা", "নৌকা", "প্রধানমন্ত্রী",
   "বঙ্গবন্ধু", "মাননীয়", "মুক্তিযুদ্ধ", "শেখ হাসিনা",
   "সরকার", "সাফল্য", "সোনার বাংলা", "স্বাধীনতা"]
def politicalBengaliRight : List String :=
  ["অন্যায়", "অবরোধ", "আন্দোলন", "খালেদা জিয়া",
   "গণতন্ত্র পুনরুদ্ধার", "জামায়াত", "তারেক রহমান", "দুর্নীতি",
   "ধানের শীষ", "নির্বাচন", "প্রতিবাদ", "বিএনপি",
   "বিরোধী দল", "ভোট", "স্বৈরাচার", "হরতাল"]
def politicalBengaliNeutral : List String :=
  ["উল্লেখ করা হয়েছে", "ঘটনা", "জানানো হয়েছে", "তথ্য",
   "পরিস্থিতি", "প্রতিবেদন", "বলা হয়েছে", "বিষয়",
   "সংবাদ"]
def politicalEnglishLeft : List String :=
  ["achievement", "awami league", "bangabandhu", "democracy",
   "development", "government", "independence", "liberation war",
   "prime minister", "progress", "ruling party", "sheikh hasina",
   "success"]
def politicalEnglishRight : List String :=
  ["autocracy", "blockade", "bnp", "corruption",
   "democracy restoration", "election", "hartal", "human rights",
   "injustice", "jamaat", "khaleda zia", "movement",
   "opposition", "protest", "tarique rahman", "vote"]
def politicalEnglishNeutral : List String :=
  ["according to", "event", "information", "it was reported",
   "news", "officials said", "report", "situation",
   "sources said"]
def positiveBiasPatternsBengali : List (String × String) :=
  [("অসাধারণ", "সাফল্য"), ("চমৎকার", "উদ্যোগ"),
   ("প্রশংসনীয়", "কাজ"), ("যুগান্তকারী", "সিদ্ধান্ত"),
   ("ঐতিহাসিক", "অর্জন")]
def negativeBiasPatternsBengali : List (String × String) :=
  [("চরম", "ব্যর্থতা"), ("জঘন্য", "কাজ"),
   ("নিন্দনীয়", "আচরণ"), ("ভয়াবহ", "পরিস্থিতি"),
   ("অগ্রহণযোগ্য", "সিদ্ধান্ত")]
def positiveBiasPatternsEnglish : List (String × String) :=
  [("remarkable", "success"), ("outstanding", "achievement"),
   ("excellent", "initiative"), ("groundbreaking", "decision"),
   ("historic", "accomplishment")]
def negativeBiasPatternsEnglish : List (String × String) :=
  [("complete", "failure"), ("terrible", "decision"),
   ("outrageous", "behavior"), ("devastating", "situation"),
   ("unacceptable", "action")]
def reportingVerbsBengali : List String :=
  ["উল্লেখ করা হয়েছে", "ঘোষণা করা হয়েছে", "জানানো হয়েছে", "তথ্য দেওয়া হয়েছে",
   "নিশ্চিত করা হয়েছে", "প্রকাশ করা হয়েছে", "বলা হয়েছে"]
def sourceAttributionBengali : List String :=
  ["কর্মকর্তারা জানিয়েছেন", "পুলিশ জানিয়েছে", "প্রধানমন্ত্রী বলেছেন", "মন্ত্রী বলেছেন",
   "সরকারি সূত্র", "সূত্র জানিয়েছে"]
def factualPhrasesBengali : List String :=
  ["গবেষণায় দেখা গেছে", "জরিপে দেখা গেছে", "তথ্য অনুযায়ী", "তদন্তে প্রমাণিত",
   "পরিসংখ্যান অনুযায়ী", "রিপোর্ট অনুযায়ী"]
def timeDateIndicatorsBengali : List String :=
  ["আজ", "এ বছর", "গত বছর", "গত মাসে",
   "গত সপ্তাহে", "গতকাল", "দুপুরে", "বিকেলে",
   "রাতে", "সকালে", "সন্ধ্যায়"]
def reportingVerbsEnglish : List String :=
  ["announced", "confirmed", "declared", "disclosed",
   "informed", "mentioned", "reported", "revealed",
   "said", "stated", "told"]
def sourceAttributionEnglish : List String :=
  ["according to", "government sources", "minister said", "officials said",
   "police said", "prime minister said", "sources said"]
def factualPhrasesEnglish : List String :=
  ["according to data", "investigation proved", "report shows", "research indicates",
   "statistics show", "study found", "survey reveals"]
def timeDateIndicatorsEnglish : List String :=
  ["afternoon", "evening", "last month", "last week",
   "last year", "morning", "night", "on monday",
   "on tuesday", "this year", "today", "yesterday"]
def opinionVerbsBengali : List String :=
  ["অভিমত", "আমার ধারণা", "আমার বিশ্বাস", "আমার মতে",
   "আমি মনে করি", "দৃষ্টিভঙ্গি", "বিশ্বাস করি", "ভাবি",
   "মতামত", "মনে করি"]
def subjectiveAdjectivesBengali : List String :=
  ["অপ্রয়োজনীয়", "অসাধারণ", "আকর্ষণীয়", "খারাপ",
   "গুরুত্বপূর্ণ", "চমৎকার", "জঘন্য", "বিরক্তিকর",
   "ভালো", "সুন্দর"]
def speculationWordsBengali : List String :=
  ["অনুমান করা যায়", "দেখে মনে হচ্ছে", "ধারণা করা হচ্ছে", "বোধহয়",
   "মনে হচ্ছে", "সম্ভবত", "হয়তো"]
def evaluationPhrasesBengali : List String :=
  ["অপ্রয়োজনীয়", "উচিত", "উচিত নয়", "করা উচিত নয়",
   "করা দরকার", "প্রয়োজনীয়", "ভুল সিদ্ধান্ত", "সঠিক সিদ্ধান্ত"]
def opinionVerbsEnglish : List String :=
  ["believe", "feel", "i believe", "i feel",
   "i think", "in my opinion", "my view", "opinion",
   "perspective", "think", "view"]
def subjectiveAdjectivesEnglish : List String :=
  ["amazing", "bad", "beautiful", "boring",
   "excellent", "good", "important", "interesting",
   "terrible", "ugly", "unnecessary"]
def speculationWordsEnglish : List String :=
  ["appears", "likely", "maybe", "perhaps",
   "possibly", "presumably", "probably", "seems",
   "supposedly", "unlikely"]
def evaluationPhrasesEnglish : List String :=
  ["appropriate", "must", "necessary", "need to",
   "ought to", "right decision", "should", "should not",
   "unnecessary", "wrong decision"]
def detectorBengaliWords : List String :=
  ["আছে", "আর", "এই", "এবং",
   "এর", "করে", "কিন্তু", "কোন",
   "জনগণ", "ঢাকা", "তাই", "তার",
   "থেকে", "দিয়ে", "দেশ", "না",
   "প্রধানমন্ত্রী", "বলে", "বাংলাদেশ", "মন্ত্রী",
   "যা", "যে", "সব", "সরকার",
   "সে", "হবে", "হয়"]
def detectorEnglishWords : List String :=
  ["a", "all", "and", "are",
   "as", "at", "bangladesh", "be",
   "country", "dhaka", "for", "government",
   "have", "in", "is", "it",
   "minister", "of", "on", "prime",
   "that", "the", "to", "was",
   "with", "you"]


/-! ## Sentiment analyzer (services/sentiment_analyzer.py) -/

def lookupModifier (mods : List (String × ℚ)) (t : String) : Option ℚ :=
  (mods.find? (fun p => p.1 == t)).map (fun p => p.2)

/-- Score one sentiment-bearing token: weight 1 times the active intensity,
credited to the positive or negative side, with the sides swapped under
negation. The accumulator is the pair (positive score, negative score). -/
def scoreSentToken (pos neg : List String) (tok : String) (intensity : ℚ)
    (isNeg : Bool) (acc : ℚ × ℚ) : ℚ × ℚ :=
  if pos.contains tok then
    if isNeg then (acc.1, acc.2 + 1 * intensity)
    else (acc.1 + 1 * intensity, acc.2)
  else if neg.contains tok then
    if isNeg then (acc.1 + 1 * intensity, acc.2)
    else (acc.1, acc.2 + 1 * intensity)
  else acc

/-- The token walk of the sentiment while loop. A token found in the modifier
table sets the intensity and advances to the next token, which is then scored
with the modifier as its preceding token; otherwise the token is scored with
intensity 1 and the previous loop token as its preceding token. A trailing
modifier ends the walk (the break on running past the end). The norm argument
is the per-language token normalisation (lowercasing for English, identity for
Bengali). -/
def sentimentWalk (norm : String → String) (pos neg : List String)
    (mods : List (String × ℚ)) (negs : List String) :
    Option String → List String → ℚ × ℚ → ℚ × ℚ
  | _, [], acc => acc
  | prev, t :: rest, acc =>
    match lookupModifier mods (norm t) with
    | some inten =>
      match rest with
      | [] => acc
      | t2 :: rest2 =>
        sentimentWalk norm pos neg mods negs (some t2) rest2
          (scoreSentToken pos neg (norm t2) inten (negs.contains (norm t)) acc)
    | none =>
      let isNeg := match prev with
        | some pv => negs.contains (norm pv)
        | none => false
      sentimentWalk norm pos neg mods negs (some t) rest
        (scoreSentToken pos neg (norm t) 1 isNeg acc)

/-- Final sentiment from the per-polarity sums: zero when no sentiment-bearing
tokens were found, else the normalised difference clamped to the unit
interval around zero. -/
def sentimentFinal (pn : ℚ × ℚ) : ℚ :=
  if pn.1 + pn.2 = 0 then 0
  else pyMax (-1) (pyMin 1 ((pn.1 - pn.2) / (pn.1 + pn.2)))

def analyzeBengaliSentiment (text : String) : ℚ :=
  sentimentFinal (sentimentWalk id bengaliPositiveWords bengaliNegativeWords
    intensityModifiersBengali negationWordsBengali none
    (tokenizeBengali text) (0, 0))

def analyzeEnglishSentiment (text : String) : ℚ :=
  sentimentFinal (sentimentWalk pyLower englishPositiveWords
    englishNegativeWords intensityModifiersEnglish negationWordsEnglish none
    (tokenizeEnglish text) (0, 0))

/-- analyze-sentiment: empty or whitespace-only text scores 0; the language
routes to the Bengali or English analyzer, any other label averages both. -/
def analyzeSentiment (text : String) (language : String) : ℚ :=
  if text = "" || pyStrip text = "" then 0
  else if language = "bengali" || language = "bn" then
    analyzeBengaliSentiment text
  else if language = "english" || language = "en" then
    analyzeEnglishSentiment text
  else
    (analyzeBengaliSentiment text + analyzeEnglishSentiment text) / 2

/-- Final emotional intensity from the emotional-token count and the token
count: zero on empty token lists, else the ratio amplified by 5 and capped
at 1. -/
def emotionalFinal (cnt total : Nat) : ℚ :=
  if total = 0 then 0 else pyMin 1 ((cnt : ℚ) / (total : ℚ) * 5)

/-- detect-emotional-intensity: the fraction of tokens found in the union of
the positive and negative lexicon for the routed language, amplified by 5 and
capped at 1. -/
def detectEmotionalIntensity (text : String) (language : String) : ℚ :=
  let bengali := language = "bengali" || language = "bn"
  let tokens := if bengali then tokenizeBengali text else tokenizeEnglish text
  let emotionalWords :=
    if bengali then bengaliPositiveWords ++ bengaliNegativeWords
    else englishPositiveWords ++ englishNegativeWords
  let cnt := (tokens.filter
    (fun t => emotionalWords.contains (pyLower t))).length
  emotionalFinal cnt tokens.length

/-! ## Political bias detector (services/political_bias_detector.py) -/

/-- Drop a literal character-list prefix, returning the remainder. -/
def dropStartCh : List Char → List Char → Option (List Char)
  | [], s => some s
  | _, [] => none
  | p :: ps, c :: cs => if p = c then dropStartCh ps cs else none

/-- Match the two-word loaded-phrase pattern (first word, one or more
whitespace characters, second word) at the head of the text, returning the
remainder after the match. -/
def matchPhraseAt (w1 w2 : List Char) (s : List Char) : Option (List Char) :=
  match dropStartCh w1 s with
  | none => none
  | some r1 =>
    match r1 with
    | [] => none
    | c :: _ =>
      if pyIsSpace c then dropStartCh w2 (r1.dropWhile pyIsSpace)
      else none

/-- Count non-overlapping matches scanning left to right (re.findall); the
fuel is the text length, an upper bound on scan steps since every step
consumes at least one character. -/
def scanCountF (matchAt : List Char → Option (List Char)) :
    Nat → List Char → Nat
  | 0, _ => 0
  | _, [] => 0
  | fuel + 1, c :: rest =>
    match matchAt (c :: rest) with
    | some rem => 1 + scanCountF matchAt fuel rem
    | none => scanCountF matchAt fuel rest

def countPhrase (pat : String × String) (s : String) : Nat :=
  scanCountF (matchPhraseAt pat.1.data pat.2.data) s.data.length s.data

def countPhrases (pats : List (String × String)) (s : String) : Nat :=
  (pats.map (fun p => countPhrase p s)).sum

/-- Keyword pass of the political detector: left and right keywords add 1,
neutral keywords add one half; the accumulator is (left, right, neutral). The
norm argument lowercases English tokens and is the identity for Bengali. -/
def politicalKeywordScores (norm : String → String)
    (left right neutral : List String) (tokens : List String) : ℚ × ℚ × ℚ :=
  tokens.foldl
    (fun acc t =>
      let tn := norm t
      if left.contains tn then (acc.1 + 1, acc.2.1, acc.2.2)
      else if right.contains tn then (acc.1, acc.2.1 + 1, acc.2.2)
      else if neutral.contains tn then (acc.1, acc.2.1, acc.2.2 + 0.5)
      else acc)
    (0, 0, 0)

/-- Final political bias from the left, right and neutral scores: zero when no
political content was found, else the difference of the right and left shares,
clamped. -/
def politicalFinal (scores : ℚ × ℚ × ℚ) : ℚ :=
  let total := scores.1 + scores.2.1 + scores.2.2
  if total = 0 then 0
  else pyMax (-1) (pyMin 1 (scores.2.1 / total - scores.1 / total))

def analyzeBengaliPoliticalBias (text : String) : ℚ :=
  let tokens := tokenizeBengali text
  let textLower := pyLower text
  let base := politicalKeywordScores id politicalBengaliLeft
    politicalBengaliRight politicalBengaliNeutral tokens
  politicalFinal
    (base.1 + (countPhrases positiveBiasPatternsBengali textLower : ℚ) * 2,
     base.2.1 + (countPhrases negativeBiasPatternsBengali textLower : ℚ) * 2,
     base.2.2)

def analyzeEnglishPoliticalBias (text : String) : ℚ :=
  let tokens := tokenizeEnglish text
  let textLower := pyLower text
  let base := politicalKeywordScores pyLower politicalEnglishLeft
    politicalEnglishRight politicalEnglishNeutral tokens
  politicalFinal
    (base.1 + (countPhrases positiveBiasPatternsEnglish textLower : ℚ) * 2,
     base.2.1 + (countPhrases negativeBiasPatternsEnglish textLower : ℚ) * 2,
     base.2.2)

/-- detect-political-bias: empty or whitespace-only text scores 0; the
language routes to the Bengali or English analyzer, any other label averages
both. -/
def detectPoliticalBias (text : String) (language : String) : ℚ :=
  if text = "" || pyStrip text = "" then 0
  else if language = "bengali" || language = "bn" then
    analyzeBengaliPoliticalBias text
  else if language = "english" || language = "en" then
    analyzeEnglishPoliticalBias text
  else
    (analyzeBengaliPoliticalBias text + analyzeEnglishPoliticalBias text) / 2

/-! ## Factual vs opinion classifier (services/factual_opinion_classifier.py) -/

/-- Sum a fixed weight over the indicators contained in the text (substring
containment per indicator, one contribution each). -/
def sumContains (inds : List String) (w : ℚ) (textLower : String) : ℚ :=
  inds.foldl (fun acc ind => if pyContains textLower ind then acc + w else acc)
    0

/-- Greedy digit-run match followed by a literal suffix character
(the percent pattern, and with a separator the decimal and comma patterns). -/
def matchDigitsThen (suffix : List Char → Option (List Char))
    (s : List Char) : Option (List Char) :=
  if (s.takeWhile pyIsDigitChar).isEmpty then none
  else suffix (s.dropWhile pyIsDigitChar)

def suffixPercent : List Char → Option (List Char)
  | '%' :: rest => some rest
  | _ => none

def suffixSepDigits (sep : Char) : List Char → Option (List Char)
  | c :: rest =>
    if c = sep then
      if (rest.takeWhile pyIsDigitChar).isEmpty then none
      else some (rest.dropWhile pyIsDigitChar)
    else none
  | [] => none

/-- Optional whitespace then one of the literal alternatives, tried in
order. -/
def suffixWsWord (alts : List String) (s : List Char) : Option (List Char) :=
  let r := s.dropWhile pyIsSpace
  alts.foldr (fun alt acc =>
    match dropStartCh alt.data r with
    | some rem => some rem
    | none => acc) none

/-- The numerical and statistical regex patterns: percentages, decimals,
comma-grouped numbers, large-number words and currency words. findall counts
over the lowercased text, summed across the five patterns. -/
def countNumericalMatches (textLower : String) : Nat :=
  let s := textLower.data
  let n := s.length
  scanCountF (matchDigitsThen suffixPercent) n s
  + scanCountF (matchDigitsThen (suffixSepDigits '.')) n s
  + scanCountF (matchDigitsThen (suffixSepDigits ',')) n s
  + scanCountF (matchDigitsThen (suffixWsWord
      ["million", "billion", "thousand", "crore", "lakh"])) n s
  + scanCountF (matchDigitsThen (suffixWsWord
      ["টাকা", "dollar", "taka", "rupee"])) n s

def firstPersonPronounsBengali : List String := ["আমি", "আমার", "আমাদের", "আমরা"]

def firstPersonPronounsEnglish : List String := ["i ", "my ", "we ", "our ", "me "]

/-- Factual and opinion totals for Bengali text: reporting verbs weigh 2,
source attribution 3, other factual categories 1, numerical matches 1.5 each;
opinion verbs weigh 3, evaluation phrases 2, other opinion categories 1,
first-person pronouns 1 each. -/
def bengaliFactualOpinionScores (text : String) : ℚ × ℚ :=
  let textLower := pyLower text
  let fscore :=
    sumContains reportingVerbsBengali 2 textLower
    + sumContains sourceAttributionBengali 3 textLower
    + sumContains factualPhrasesBengali 1 textLower
    + sumContains timeDateIndicatorsBengali 1 textLower
    + (countNumericalMatches textLower : ℚ) * 1.5
  let oscore :=
    sumContains opinionVerbsBengali 3 textLower
    + sumContains subjectiveAdjectivesBengali 1 textLower
    + sumContains speculationWordsBengali 1 textLower
    + sumContains evaluationPhrasesBengali 2 textLower
    + sumContains firstPersonPronounsBengali 1 textLower
  (fscore, oscore)

def englishFactualOpinionScores (text : String) : ℚ × ℚ :=
  let textLower := pyLower text
  let fscore :=
    sumContains reportingVerbsEnglish 2 textLower
    + sumContains sourceAttributionEnglish 3 textLower
    + sumContains factualPhrasesEnglish 1 textLower
    + sumContains timeDateIndicatorsEnglish 1 textLower
    + (countNumericalMatches textLower : ℚ) * 1.5
  let oscore :=
    sumContains opinionVerbsEnglish 3 textLower
    + sumContains subjectiveAdjectivesEnglish 1 textLower
    + sumContains speculationWordsEnglish 1 textLower
    + sumContains evaluationPhrasesEnglish 2 textLower
    + sumContains firstPersonPronounsEnglish 1 textLower
  (fscore, oscore)

/-- Final ratio: one half when no indicator fired, else the factual share
clamped to the unit interval. -/
def factualFinal (fo : ℚ × ℚ) : ℚ :=
  if fo.1 + fo.2 = 0 then 0.5
  else pyMin 1 (pyMax 0 (fo.1 / (fo.1 + fo.2)))

def analyzeBengaliFactualOpinion (text : String) : ℚ :=
  factualFinal (bengaliFactualOpinionScores text)

def analyzeEnglishFactualOpinion (text : String) : ℚ :=
  factualFinal (englishFactualOpinionScores text)

/-- classify-factual-vs-opinion: empty or whitespace-only text scores one
half; this classifier routes only on the exact labels bengali and english (no
two-letter codes), any other label averages both. -/
def classifyFactualVsOpinion (text : String) (language : String) : ℚ :=
  if text = "" || pyStrip text = "" then 0.5
  else if language = "bengali" then analyzeBengaliFactualOpinion text
  else if language = "english" then analyzeEnglishFactualOpinion text
  else
    (analyzeBengaliFactualOpinion text + analyzeEnglishFactualOpinion text) / 2

/-! ## Language detector (services/language_detector.py) -/

/-- The Bengali ranges of the detector: the Bengali block plus the zero-width
joiner pair. The joiner pair is dead weight in character analysis because the
alphabetic test already rejects it, exactly as in the source. -/
def inBengaliRanges (c : Char) : Bool :=
  (0x0980 ≤ c.toNat && c.toNat ≤ 0x09FF) ||
    (0x200C ≤ c.toNat && c.toNat ≤ 0x200D)

/-- Character signal: over the alphabetic characters, the Bengali-range share
and the ASCII-letter share. -/
def analyzeCharacters (text : String) : ℚ × ℚ :=
  let alphas := text.data.filter pyIsAlphaChar
  let total := alphas.length
  let beng := (alphas.filter inBengaliRanges).length
  let eng := (alphas.filter
    (fun c => !inBengaliRanges c && c.toNat ≤ 127 && c.isAlpha)).length
  if total = 0 then (0, 0)
  else ((beng : ℚ) / (total : ℚ), (eng : ℚ) / (total : ℚ))

/-- Word tokens of the detector: maximal word-character runs of the lowercased
text (the boundary-anchored word regex). -/
def detectorWordTokens (text : String) : List String :=
  runsSplitGo (fun c => !isPyWordChar c) [] (pyLower text).data

/-- Word signal: shares of recognised Bengali and English stop words over all
recognised words. -/
def analyzeWords (text : String) : ℚ × ℚ :=
  let words := detectorWordTokens text
  let bcount := (words.filter (fun w => detectorBengaliWords.contains w)).length
  let ecount := (words.filter (fun w => detectorEnglishWords.contains w)).length
  let total := bcount + ecount
  if total = 0 then (0, 0)
  else ((bcount : ℚ) / (total : ℚ), (ecount : ℚ) / (total : ℚ))

/-- get-language-confidence: combine the character signal (weight 0.7) and the
word signal (weight 0.3) per language; the higher side names the language and
its score is the confidence, ties going to english. -/
def getLanguageConfidence (text : String) : String × ℚ :=
  let cs := analyzeCharacters text
  let ws := analyzeWords text
  let bengaliScore := cs.1 * 0.7 + ws.1 * 0.3
  let englishScore := cs.2 * 0.7 + ws.2 * 0.3
  if bengaliScore > englishScore then ("bengali", bengaliScore)
  else ("english", englishScore)

/-! ## Bias analyzer (services/bias_analyzer.py) -/

/-- The fixed-weight overall bias combination: 0.2 times the sentiment
magnitude, 0.3 times the political magnitude, 0.25 times the emotional score
and 0.25 times one minus the factual score, clamped to the unit interval. -/
def calculateOverallBias (s p e f : ℚ) : ℚ :=
  pyMax 0 (pyMin 1
    (pyAbs s * 0.2 + pyAbs p * 0.3 + e * 0.25 + (1 - f) * 0.25))

/-- The neutral score returned when analysis raises: zeros, factual one half,
and the current timestamp. -/
def neutralBiasScore (now : Int) : BiasScore := ⟨0, 0, 0, 0.5, 0, now⟩

/-- analyze-article-bias: join title and content with a space, detect the
language and keep it only above confidence 0.6 (else the declared language of
the article), run the four sub-analyzers and combine. The timestamp parameter
is the clock reading of the run. -/
def analyzeArticleBias (a : Article) (now : Int) : BiasScore :=
  let fullText := a.title ++ " " ++ a.content
  let det := getLanguageConfidence fullText
  let lang := if det.2 > 0.6 then det.1 else a.language
  let s := analyzeSentiment fullText lang
  let p := detectPoliticalBias fullText lang
  let e := detectEmotionalIntensity fullText lang
  let f := classifyFactualVsOpinion fullText lang
  ⟨s, p, e, f, calculateOverallBias s p e f, now⟩

/-! ## Story id generation (services/article_comparator.py)

The builtin Python hash on strings is keyed by a per-process random seed and
is not part of this repository, so the story id generator takes the hash as an
explicit function parameter: one run of the program corresponds to one choice
of that function. -/

/-- Two-digit zero padding (strftime month and day fields). -/
def pad2 (n : Nat) : String :=
  if n < 10 then "0" ++ toString n else toString n

/-- Four-digit zero padding (the 04d format of the title hash). -/
def pad4 (n : Nat) : String :=
  if n < 10 then "000" ++ toString n
  else if n < 100 then "00" ++ toString n
  else if n < 1000 then "0" ++ toString n
  else toString n

/-- strftime with the year-month-day format; four-digit years render as
themselves, month and day are zero padded to two digits. -/
def strftimeYmd (d : DateYMD) : String :=
  toString d.year ++ pad2 d.month ++ pad2 d.day

/-- The builtin min over the publication dates of a nonempty article list. -/
def minPubDate (a : Article) (rest : List Article) : DateYMD :=
  rest.foldl
    (fun m b => if DateYMD.lt b.publicationDate m then b.publicationDate else m)
    a.publicationDate

/-- generate-story-id: earliest publication date formatted as year month day,
an underscore, then the absolute builtin hash of the titles joined by single
spaces, mod 10000, zero padded to four digits. The callers guarantee at least
two articles; the empty list (on which the builtin min would raise) maps to
the empty string. -/
def generateStoryId (pyHash : String → Int) (articles : List Article) : String :=
  match articles with
  | [] => ""
  | a :: rest =>
    let earliest := minPubDate a rest
    let combinedTitles :=
      String.intercalate " " ((a :: rest).map (fun x => x.title))
    let titleHash := (pyHash combinedTitles).natAbs % 10000
    strftimeYmd earliest ++ "_" ++ pad4 titleHash

/-! ## Scraper frame (scrapers/base_scraper.py)

Fallible effects are modelled in the exception monad: listing article urls may
raise (or return urls), and fetching plus extracting one url may raise, return
no article, or return an article. scrape-articles wraps the body in the outer
try of the source, whose handler returns the articles accumulated so far; a
failure before the loop therefore yields the empty list. -/

def runCatch {e a : Type} (m : Except e a) (handler : e → a) : a :=
  match m with
  | .ok v => v
  | .error err => handler err

/-- The per-url loop: each url is fetched and extracted inside its own try;
a raised error or an extraction returning nothing skips the url, a returned
article is accumulated. -/
def scrapeLoop {e : Type} (fetch : String → Except e (Option Article)) :
    List String → List Article
  | [] => []
  | u :: rest =>
    match fetch u with
    | .ok (some a) => a :: scrapeLoop fetch rest
    | .ok none => scrapeLoop fetch rest
    | .error _ => scrapeLoop fetch rest

/-- The body of scrape-articles before the outer handler: obtain the url list
(which may raise), return empty when no urls were found, else run the loop. -/
def scrapeArticlesBody {e : Type} (getUrls : Except e (List String))
    (fetch : String → Except e (Option Article)) : Except e (List Article) := do
  let urls ← getUrls
  if urls.isEmpty then
    return []
  return scrapeLoop fetch urls

/-- scrape-articles: the body under the outer try, whose handler returns the
accumulated articles (none yet when obtaining urls raised). -/
def scrapeArticles {e : Type} (getUrls : Except e (List String))
    (fetch : String → Except e (Option Article)) : List Article :=
  runCatch (scrapeArticlesBody getUrls fetch) (fun _ => [])

/-! ## Scraper health stats (scrapers/scraper_manager.py) -/

/-- The per-source health record of the scraper manager. -/
structure ScraperHealth where
  lastSuccessfulScrape : Option Int
  totalArticlesScraped : Nat
  totalErrors : Nat
  averageResponseTime : ℚ
  isHealthy : Bool
deriving DecidableEq

/-- The stats every source starts with. -/
def initialScraperHealth : ScraperHealth := ⟨none, 0, 0, 0, true⟩

/-- update-scraper-stats: on success, record the time, add the article count,
fold the response time into the running average and mark healthy (the source
assigns healthy only when it was unhealthy, which nets to the same state); on
failure, bump the error counter and mark unhealthy once it reaches 3. The
error counter is never reset here. -/
def updateScraperStats (st : ScraperHealth) (articlesCount : Nat)
    (responseTime : ℚ) (success : Bool) (now : Int) : ScraperHealth :=
  if success then
    { st with
      lastSuccessfulScrape := some now
      totalArticlesScraped := st.totalArticlesScraped + articlesCount
      averageResponseTime :=
        if st.averageResponseTime = 0 then responseTime
        else (st.averageResponseTime + responseTime) / 2
      isHealthy := true }
  else
    { st with
      totalErrors := st.totalErrors + 1
      isHealthy := if st.totalErrors + 1 ≥ 3 then false else st.isHealthy }

/-! ## Content similarity matcher (services/content_similarity_matcher.py)

Square root (for vector magnitudes) and logarithm (for inverse document
frequency) are platform float routines, so both are taken as function
parameters and every similarity theorem quantifies over them. Python iterates
word sets in an unspecified, seed-dependent order when building frequency
vectors; cosine similarity does not depend on that common order, and the
sorted order of the term set is used as the canonical representative. -/

/-- Shared preprocessing: lowercase, replace non-word non-space characters by
spaces, strip and collapse whitespace, then keep only words of length at least
3 joined by single spaces. -/
def preprocessSimText (text : String) : String :=
  if text = "" then "" else
  let t := pyLower text
  let t : String := ⟨t.data.map
    (fun c => if isPyWordChar c || pyIsSpace c then c else ' ')⟩
  let t := collapseWs (pyStrip t)
  String.intercalate " " ((pySplitWs t).filter (fun w => w.length ≥ 3))

/-- Jaccard index of two token sets, zero when either set is empty (and
guarding a zero union as the source does). -/
def jaccardFinset (s1 s2 : Finset String) : ℚ :=
  if s1 = ∅ ∨ s2 = ∅ then 0
  else
    if (s1 ∪ s2).card > 0 then ((s1 ∩ s2).card : ℚ) / ((s1 ∪ s2).card : ℚ)
    else 0

/-- Title similarity: Jaccard index of the preprocessed title token sets, zero
on an empty title or empty token set. -/
def titleSimilarity (title1 title2 : String) : ℚ :=
  if title1 = "" ∨ title2 = "" then 0
  else
    jaccardFinset (pySplitWs (preprocessSimText title1)).toFinset
      (pySplitWs (preprocessSimText title2)).toFinset

/-- Cosine similarity of two equal-length vectors: zero on a length mismatch
or a zero magnitude, else the dot product over the product of magnitudes. -/
def vectorCosineSimilarity (sqrtFn : ℚ → ℚ) (v1 v2 : List ℚ) : ℚ :=
  if v1.length ≠ v2.length then 0
  else
    let dot := ((v1.zip v2).map (fun p => p.1 * p.2)).sum
    let mag1 := sqrtFn ((v1.map (fun x => x * x)).sum)
    let mag2 := sqrtFn ((v2.map (fun x => x * x)).sum)
    if mag1 = 0 ∨ mag2 = 0 then 0 else dot / (mag1 * mag2)

/-- Word-frequency vector over a common word order. -/
def wordFreqVector (ws : List String) (allWords : List String) : List ℚ :=
  allWords.map (fun w => (ws.count w : ℚ))

/-- Cosine similarity of two texts by word frequency over the union of their
word sets. -/
def cosineSimilarityText (sqrtFn : ℚ → ℚ) (t1 t2 : String) : ℚ :=
  let words1 := pySplitWs t1
  let words2 := pySplitWs t2
  let allWords := (words1.toFinset ∪ words2.toFinset).sort (· ≤ ·)
  if allWords.isEmpty then 0
  else vectorCosineSimilarity sqrtFn (wordFreqVector words1 allWords)
    (wordFreqVector words2 allWords)

/-- Content similarity: cosine over word frequencies of the preprocessed
contents, zero when either content is empty. -/
def contentSimilarity (sqrtFn : ℚ → ℚ) (content1 content2 : String) : ℚ :=
  if content1 = "" ∨ content2 = "" then 0
  else cosineSimilarityText sqrtFn (preprocessSimText content1)
    (preprocessSimText content2)

/-- TF-IDF vector of one document against the corpus: term frequency share
times the log of corpus size over document frequency, over the sorted term set
of the corpus. -/
def calcTfidfVector (logFn : ℚ → ℚ) (tokens : List String)
    (docs : List (List String)) : List ℚ :=
  let totalTerms := tokens.length
  let allTerms := ((docs.map List.toFinset).foldr (· ∪ ·) ∅).sort (· ≤ ·)
  allTerms.map (fun term =>
    let tfScore : ℚ :=
      if totalTerms > 0 then (tokens.count term : ℚ) / (totalTerms : ℚ) else 0
    let df := (docs.filter (fun d => d.contains term)).length
    let dfv := if df = 0 then 1 else df
    tfScore * logFn ((docs.length : ℚ) / (dfv : ℚ)))

/-- TF-IDF similarity over the two-document corpus of the preprocessed texts,
zero when either text or token list is empty. -/
def tfidfSimilarityText (sqrtFn logFn : ℚ → ℚ) (text1 text2 : String) : ℚ :=
  if text1 = "" ∨ text2 = "" then 0
  else
    let tokens1 := pySplitWs (preprocessSimText text1)
    let tokens2 := pySplitWs (preprocessSimText text2)
    if tokens1.isEmpty ∨ tokens2.isEmpty then 0
    else
      vectorCosineSimilarity sqrtFn
        (calcTfidfVector logFn tokens1 [tokens1, tokens2])
        (calcTfidfVector logFn tokens2 [tokens1, tokens2])

/-- calculate-similarity: 0.4 title Jaccard plus 0.4 content cosine plus 0.2
TF-IDF cosine over title-plus-content, clamped to the unit interval. -/
def calculateSimilarity (sqrtFn logFn : ℚ → ℚ) (a1 a2 : Article) : ℚ :=
  let text1 := a1.title ++ " " ++ a1.content
  let text2 := a2.title ++ " " ++ a2.content
  let ts := titleSimilarity a1.title a2.title
  let cs := contentSimilarity sqrtFn a1.content a2.content
  let tf := tfidfSimilarityText sqrtFn logFn text1 text2
  pyMin 1 (pyMax 0 (ts * 0.4 + cs * 0.4 + tf * 0.2))

/-! ## Range facts for the bias pipeline (claim C4) -/

theorem sentimentFinal_range (pn : ℚ × ℚ) :
    -1 ≤ sentimentFinal pn ∧ sentimentFinal pn ≤ 1 := by
  unfold sentimentFinal pyMax pyMin
  split_ifs <;> constructor <;> linarith

theorem avg_range_pm (x y : ℚ) (hx : -1 ≤ x ∧ x ≤ 1) (hy : -1 ≤ y ∧ y ≤ 1) :
    -1 ≤ (x + y) / 2 ∧ (x + y) / 2 ≤ 1 := by
  obtain ⟨hx1, hx2⟩ := hx
  obtain ⟨hy1, hy2⟩ := hy
  constructor <;> linarith

theorem analyzeSentiment_range (text language : String) :
    -1 ≤ analyzeSentiment text language ∧ analyzeSentiment text language ≤ 1
    := by
  unfold analyzeSentiment analyzeBengaliSentiment analyzeEnglishSentiment
  split_ifs
  · norm_num
  · exact sentimentFinal_range _
  · exact sentimentFinal_range _
  · exact avg_range_pm _ _ (sentimentFinal_range _) (sentimentFinal_range _)

theorem politicalFinal_range (scores : ℚ × ℚ × ℚ) :
    -1 ≤ politicalFinal scores ∧ politicalFinal scores ≤ 1 := by
  unfold politicalFinal pyMax pyMin
  dsimp only
  split_ifs <;> constructor <;> linarith

theorem detectPoliticalBias_range (text language : String) :
    -1 ≤ detectPoliticalBias text language
    ∧ detectPoliticalBias text language ≤ 1 := by
  unfold detectPoliticalBias analyzeBengaliPoliticalBias
    analyzeEnglishPoliticalBias
  split_ifs
  · norm_num
  · exact politicalFinal_range _
  · exact politicalFinal_range _
  · exact avg_range_pm _ _ (politicalFinal_range _) (politicalFinal_range _)

theorem emotionalFinal_range (cnt total : Nat) :
    0 ≤ emotionalFinal cnt total ∧ emotionalFinal cnt total ≤ 1 := by
  unfold emotionalFinal pyMin
  have h5 : (0 : ℚ) ≤ (cnt : ℚ) / (total : ℚ) * 5 := by positivity
  split_ifs <;> constructor <;> linarith

theorem detectEmotionalIntensity_range (text language : String) :
    0 ≤ detectEmotionalIntensity text language
    ∧ detectEmotionalIntensity text language ≤ 1 := by
  unfold detectEmotionalIntensity
  exact emotionalFinal_range _ _

theorem factualFinal_range (fo : ℚ × ℚ) :
    0 ≤ factualFinal fo ∧ factualFinal fo ≤ 1 := by
  unfold factualFinal pyMin pyMax
  split_ifs <;> constructor <;> linarith

theorem avg_range_01 (x y : ℚ) (hx : 0 ≤ x ∧ x ≤ 1) (hy : 0 ≤ y ∧ y ≤ 1) :
    0 ≤ (x + y) / 2 ∧ (x + y) / 2 ≤ 1 := by
  obtain ⟨hx1, hx2⟩ := hx
  obtain ⟨hy1, hy2⟩ := hy
  constructor <;> linarith

theorem classifyFactualVsOpinion_range (text language : String) :
    0 ≤ classifyFactualVsOpinion text language
    ∧ classifyFactualVsOpinion text language ≤ 1 := by
  unfold classifyFactualVsOpinion analyzeBengaliFactualOpinion
    analyzeEnglishFactualOpinion
  split_ifs
  · norm_num
  · exact factualFinal_range _
  · exact factualFinal_range _
  · exact avg_range_01 _ _ (factualFinal_range _) (factualFinal_range _)

theorem calculateOverallBias_range (s p e f : ℚ) :
    0 ≤ calculateOverallBias s p e f ∧ calculateOverallBias s p e f ≤ 1 := by
  unfold calculateOverallBias pyMax pyMin
  split_ifs <;> constructor <;> linarith

/-- The documented component ranges of a bias score. -/
def biasScoreInRanges (b : BiasScore) : Prop :=
  -1 ≤ b.sentimentScore ∧ b.sentimentScore ≤ 1 ∧
  -1 ≤ b.politicalBiasScore ∧ b.politicalBiasScore ≤ 1 ∧
  0 ≤ b.emotionalLanguageScore ∧ b.emotionalLanguageScore ≤ 1 ∧
  0 ≤ b.factualVsOpinionScore ∧ b.factualVsOpinionScore ≤ 1 ∧
  0 ≤ b.overallBiasScore ∧ b.overallBiasScore ≤ 1

/-- Claim C4: both on the normal path and on the exception path (the neutral
score), every bias score the analyzer returns satisfies the documented ranges:
sentiment and political bias lie in the signed unit interval, emotional,
factual and overall scores lie in the unit interval. -/
theorem analyzeArticleBias_in_documented_ranges (a : Article) (now : Int) :
    biasScoreInRanges (analyzeArticleBias a now)
    ∧ biasScoreInRanges (neutralBiasScore now) := by
  constructor
  · exact ⟨(analyzeSentiment_range _ _).1, (analyzeSentiment_range _ _).2,
      (detectPoliticalBias_range _ _).1, (detectPoliticalBias_range _ _).2,
      (detectEmotionalIntensity_range _ _).1,
      (detectEmotionalIntensity_range _ _).2,
      (classifyFactualVsOpinion_range _ _).1,
      (classifyFactualVsOpinion_range _ _).2,
      (calculateOverallBias_range _ _ _ _).1,
      (calculateOverallBias_range _ _ _ _).2⟩
  · unfold biasScoreInRanges neutralBiasScore
    norm_num

/-! ## Empty-text boundary behavior (claim C5) and determinism (claim C7) -/

theorem analyzeSentiment_space_any (lang : String) :
    analyzeSentiment " " lang = 0 := by
  unfold analyzeSentiment
  simp [show pyStrip " " = "" from rfl]

theorem detectPoliticalBias_space_any (lang : String) :
    detectPoliticalBias " " lang = 0 := by
  unfold detectPoliticalBias
  simp [show pyStrip " " = "" from rfl]

theorem classifyFactualVsOpinion_space_any (lang : String) :
    classifyFactualVsOpinion " " lang = 0.5 := by
  unfold classifyFactualVsOpinion
  simp [show pyStrip " " = "" from rfl]

theorem detectEmotionalIntensity_space_any (lang : String) :
    detectEmotionalIntensity " " lang = 0 := by
  unfold detectEmotionalIntensity
  dsimp only
  split
  · simp [show tokenizeBengali " " = [] from rfl, emotionalFinal]
  · simp [show tokenizeEnglish " " = [] from rfl, emotionalFinal]

/-- An article with empty title and content and an explicitly supplied content
hash, the concrete input for the empty-text and determinism evaluations. -/
def emptyDemoArticle : Article :=
  mkArticle "u" "" "" none ⟨2024, 1, 1⟩ "s" 0 "english" none (some "h") none
    none

theorem analyzeCharacters_space : analyzeCharacters " " = (0, 0) := rfl

theorem analyzeWords_space : analyzeWords " " = (0, 0) := rfl

theorem getLanguageConfidence_space_snd : (getLanguageConfidence " ").2 = 0
    := by
  unfold getLanguageConfidence
  rw [analyzeCharacters_space, analyzeWords_space]
  dsimp only
  split <;> norm_num

theorem calculateOverallBias_neutral_eval :
    calculateOverallBias 0 0 0 0.5 = 1 / 8 := by
  unfold calculateOverallBias pyMax pyMin pyAbs
  norm_num

/-- Evaluation of the analyzer on any article with empty title and content:
all sub-analyzers hit their empty-text guards, and the overall combination of
the resulting neutral values is one eighth. -/
theorem emptyArticleBias_eval (a : Article) (now : Int)
    (ht : a.title = "") (hc : a.content = "") :
    analyzeArticleBias a now = ⟨0, 0, 0, 0.5, 1 / 8, now⟩ := by
  unfold analyzeArticleBias
  rw [ht, hc]
  have hful : ("" : String) ++ " " ++ "" = " " := rfl
  rw [hful]
  dsimp only
  have h06 : ¬ ((getLanguageConfidence " ").2 > 0.6) := by
    rw [getLanguageConfidence_space_snd]
    norm_num
  rw [if_neg h06, analyzeSentiment_space_any, detectPoliticalBias_space_any,
    detectEmotionalIntensity_space_any, classifyFactualVsOpinion_space_any,
    calculateOverallBias_neutral_eval]

/-- Claim C5 fails on the code at its own stated values: analyzing empty text
yields factual one half, and the fixed-weight formula then makes the overall
score 0.25 times (1 minus 0.5) = 0.125, not 0 as the claim asserts. -/
theorem analyzeArticleBias_empty_overall_not_zero :
    (analyzeArticleBias emptyDemoArticle 0).overallBiasScore = 1 / 8
    ∧ (analyzeArticleBias emptyDemoArticle 0).overallBiasScore ≠ 0 := by
  rw [emptyArticleBias_eval emptyDemoArticle 0 rfl rfl]
  norm_num

/-- Claim C5 as amended: analyzing an article with empty title and content
yields sentiment 0, political bias 0, emotional score 0, factual score 0.5,
and the overall score given by the fixed-weight combination at those values,
namely 0.125 (not 0), for every declared language and run time. -/
theorem analyzeArticleBias_empty_text (a : Article) (now : Int)
    (ht : a.title = "") (hc : a.content = "") :
    analyzeArticleBias a now
      = ⟨0, 0, 0, 0.5, calculateOverallBias 0 0 0 0.5, now⟩
    ∧ calculateOverallBias 0 0 0 0.5 = 1 / 8 := by
  rw [emptyArticleBias_eval a now ht hc, calculateOverallBias_neutral_eval]
  exact ⟨rfl, rfl⟩

/-- Witness for the amended claim C5 at the concrete empty article. -/
theorem analyzeArticleBias_empty_text_witness :
    emptyDemoArticle.title = "" ∧ emptyDemoArticle.content = ""
    ∧ (analyzeArticleBias emptyDemoArticle 0
        = ⟨0, 0, 0, 0.5, calculateOverallBias 0 0 0 0.5, 0⟩
      ∧ calculateOverallBias 0 0 0 0.5 = 1 / 8) :=
  ⟨rfl, rfl, analyzeArticleBias_empty_text emptyDemoArticle 0 rfl rfl⟩

/-- Claim C7 fails on the code as stated: the returned bias score carries the
analysis timestamp as one of its fields, so two runs of the analyzer on the
same article at different clock times are not bit-identical on every field. -/
theorem analyzeArticleBias_not_bit_identical :
    analyzeArticleBias emptyDemoArticle 0 ≠ analyzeArticleBias emptyDemoArticle 1
    := by
  rw [emptyArticleBias_eval emptyDemoArticle 0 rfl rfl,
    emptyArticleBias_eval emptyDemoArticle 1 rfl rfl]
  intro heq
  simp only [BiasScore.mk.injEq] at heq
  exact absurd heq.2.2.2.2.2 (by norm_num)

/-- Claim C7 as amended: the five score fields of the analyzer output are
deterministic functions of the article alone; only the analysis timestamp
varies between runs on the same input. -/
theorem analyzeArticleBias_scores_deterministic (a : Article) (t1 t2 : Int) :
    (analyzeArticleBias a t1).sentimentScore
      = (analyzeArticleBias a t2).sentimentScore
    ∧ (analyzeArticleBias a t1).politicalBiasScore
      = (analyzeArticleBias a t2).politicalBiasScore
    ∧ (analyzeArticleBias a t1).emotionalLanguageScore
      = (analyzeArticleBias a t2).emotionalLanguageScore
    ∧ (analyzeArticleBias a t1).factualVsOpinionScore
      = (analyzeArticleBias a t2).factualVsOpinionScore
    ∧ (analyzeArticleBias a t1).overallBiasScore
      = (analyzeArticleBias a t2).overallBiasScore :=
  ⟨rfl, rfl, rfl, rfl, rfl⟩

/-! ## Story id determinism (claim C6) -/

def storyDemoArticleA : Article :=
  mkArticle "http://x/a" "T1" "c" none ⟨2024, 1, 2⟩ "s1" 0 "english" none
    (some "h1") none none

def storyDemoArticleB : Article :=
  mkArticle "http://x/b" "T2" "c" none ⟨2024, 1, 1⟩ "s2" 0 "english" none
    (some "h2") none none

/-- Claim C6 fails on the code: the four digit suffix of the story id comes
from the builtin Python string hash, which is keyed by a random per-process
seed, so the same two articles produce different story ids under different
process hash functions; the date-underscore-four-digits shape itself is
produced either way. -/
theorem generateStoryId_depends_on_process_hash :
    generateStoryId (fun _ => 0) [storyDemoArticleA, storyDemoArticleB]
      = "20240101_0000"
    ∧ generateStoryId (fun _ => 1) [storyDemoArticleA, storyDemoArticleB]
      = "20240101_0001"
    ∧ generateStoryId (fun _ => 0) [storyDemoArticleA, storyDemoArticleB]
      ≠ generateStoryId (fun _ => 1) [storyDemoArticleA, storyDemoArticleB]
    := by
  decide

/-! ## Scrape loop error containment (claim C8) -/

theorem scrapeLoop_eq_filterMap {e : Type}
    (fetch : String → Except e (Option Article)) (urls : List String) :
    scrapeLoop fetch urls = urls.filterMap (fun u =>
      match fetch u with
      | .ok (some a) => some a
      | _ => none) := by
  induction urls with
  | nil => rfl
  | cons u rest ih =>
    rw [List.filterMap_cons]
    unfold scrapeLoop
    cases h : fetch u with
    | ok v => cases v <;> simp [ih]
    | error err => simp [ih]

/-- Claim C8: the scrape loop is a total function of the adapter outcomes (no
exception escapes to the caller): when listing urls raises or yields nothing
the result is the empty list, and otherwise the result is exactly the
accumulated successful extractions, every url whose fetch raised or whose
extraction returned nothing being skipped. -/
theorem scrapeArticles_partial_results {e : Type}
    (getUrls : Except e (List String))
    (fetch : String → Except e (Option Article)) :
    scrapeArticles getUrls fetch =
      match getUrls with
      | .error _ => []
      | .ok urls => urls.filterMap (fun u =>
          match fetch u with
          | .ok (some a) => some a
          | _ => none) := by
  cases getUrls with
  | error err => rfl
  | ok urls =>
    cases urls with
    | nil => rfl
    | cons u rest =>
      show runCatch (scrapeArticlesBody (.ok (u :: rest)) fetch) _ = _
      unfold scrapeArticlesBody
      simp [runCatch, Bind.bind, Except.bind, Pure.pure, Except.pure,
        scrapeLoop_eq_filterMap]

/-! ## Scraper health accounting (claim C9) -/

/-- Claim C9 fails on the code: a successful scrape marks the source healthy
but does not reset the error counter (after one failure then one success the
counter still reads 1, not 0), and because the counter is cumulative, two
later failures push it to 3 and mark the source unhealthy even though the
failures were interleaved with a success. -/
theorem updateScraperStats_success_no_reset :
    (updateScraperStats (updateScraperStats initialScraperHealth 0 0 false 0)
        5 1 true 10).totalErrors = 1
    ∧ (updateScraperStats (updateScraperStats initialScraperHealth 0 0 false 0)
        5 1 true 10).isHealthy = true
    ∧ (updateScraperStats (updateScraperStats (updateScraperStats
        (updateScraperStats initialScraperHealth 0 0 false 0) 5 1 true 10)
        0 0 false 20) 0 0 false 30).isHealthy = false := by
  decide

/-! ## Similarity symmetry (claim C10) -/

theorem jaccardFinset_comm (s1 s2 : Finset String) :
    jaccardFinset s1 s2 = jaccardFinset s2 s1 := by
  unfold jaccardFinset
  simp only [or_comm, Finset.union_comm, Finset.inter_comm]

theorem titleSimilarity_comm (t1 t2 : String) :
    titleSimilarity t1 t2 = titleSimilarity t2 t1 := by
  unfold titleSimilarity
  simp only [or_comm]
  rw [jaccardFinset_comm]

theorem zipMulSum_comm (v1 : List ℚ) : ∀ v2 : List ℚ,
    ((v1.zip v2).map (fun p => p.1 * p.2)).sum
      = ((v2.zip v1).map (fun p => p.1 * p.2)).sum := by
  induction v1 with
  | nil => intro v2; cases v2 <;> simp
  | cons x xs ih =>
    intro v2
    cases v2 with
    | nil => simp
    | cons y ys => simp [ih ys, mul_comm x y]

theorem vectorCosineSimilarity_comm (sqrtFn : ℚ → ℚ) (v1 v2 : List ℚ) :
    vectorCosineSimilarity sqrtFn v1 v2 = vectorCosineSimilarity sqrtFn v2 v1
    := by
  unfold vectorCosineSimilarity
  dsimp only
  by_cases hlen : v1.length = v2.length
  · rw [if_neg (show ¬ v1.length ≠ v2.length by simp [hlen]),
      if_neg (show ¬ v2.length ≠ v1.length by simp [hlen])]
    by_cases hm1 : sqrtFn ((v1.map (fun x => x * x)).sum) = 0 <;>
      by_cases hm2 : sqrtFn ((v2.map (fun x => x * x)).sum) = 0 <;>
      simp only [hm1, hm2, or_true, true_or, or_false, false_or, if_true,
        not_false_eq_true, ite_true, ite_false] <;>
      first
        | simp [hm1, hm2]
        | rw [zipMulSum_comm v1 v2, mul_comm
            (sqrtFn ((v1.map (fun x => x * x)).sum))
            (sqrtFn ((v2.map (fun x => x * x)).sum))]
  · rw [if_pos hlen, if_pos (fun h => hlen h.symm)]

theorem cosineSimilarityText_comm (sqrtFn : ℚ → ℚ) (t1 t2 : String) :
    cosineSimilarityText sqrtFn t1 t2 = cosineSimilarityText sqrtFn t2 t1 := by
  unfold cosineSimilarityText
  dsimp only
  rw [Finset.union_comm (pySplitWs t2).toFinset (pySplitWs t1).toFinset,
    vectorCosineSimilarity_comm]

theorem contentSimilarity_comm (sqrtFn : ℚ → ℚ) (c1 c2 : String) :
    contentSimilarity sqrtFn c1 c2 = contentSimilarity sqrtFn c2 c1 := by
  unfold contentSimilarity
  simp only [or_comm]
  rw [cosineSimilarityText_comm]

theorem calcTfidfVector_docs_comm (logFn : ℚ → ℚ) (t d1 d2 : List String) :
    calcTfidfVector logFn t [d1, d2] = calcTfidfVector logFn t [d2, d1] := by
  unfold calcTfidfVector
  dsimp only [List.map_cons, List.map_nil, List.foldr_cons, List.foldr_nil]
  have hterms : (d1.toFinset ∪ (d2.toFinset ∪ ∅))
      = (d2.toFinset ∪ (d1.toFinset ∪ ∅)) := by
    rw [Finset.union_empty, Finset.union_empty, Finset.union_comm]
  rw [hterms]
  apply List.map_congr_left
  intro term _
  have hdf : (List.filter (fun d => d.contains term) [d1, d2]).length
      = (List.filter (fun d => d.contains term) [d2, d1]).length := by
    by_cases hm1 : term ∈ d1 <;> by_cases hm2 : term ∈ d2 <;>
      simp [List.filter, hm1, hm2]
  rw [hdf]
  simp

theorem tfidfSimilarityText_comm (sqrtFn logFn : ℚ → ℚ) (t1 t2 : String) :
    tfidfSimilarityText sqrtFn logFn t1 t2
      = tfidfSimilarityText sqrtFn logFn t2 t1 := by
  unfold tfidfSimilarityText
  dsimp only
  simp only [or_comm]
  rw [calcTfidfVector_docs_comm logFn (pySplitWs (preprocessSimText t1)),
    calcTfidfVector_docs_comm logFn (pySplitWs (preprocessSimText t2)),
    vectorCosineSimilarity_comm]

/-- Claim C10: pairwise article similarity and each of its three components
(title Jaccard, content word-frequency cosine, two-document TF-IDF cosine) are
invariant under swapping the two articles, for every square root and logarithm
function the float routines might compute. -/
theorem calculateSimilarity_symmetric (sqrtFn logFn : ℚ → ℚ)
    (a1 a2 : Article) :
    titleSimilarity a1.title a2.title = titleSimilarity a2.title a1.title
    ∧ contentSimilarity sqrtFn a1.content a2.content
      = contentSimilarity sqrtFn a2.content a1.content
    ∧ tfidfSimilarityText sqrtFn logFn (a1.title ++ " " ++ a1.content)
        (a2.title ++ " " ++ a2.content)
      = tfidfSimilarityText sqrtFn logFn (a2.title ++ " " ++ a2.content)
        (a1.title ++ " " ++ a1.content)
    ∧ calculateSimilarity sqrtFn logFn a1 a2
      = calculateSimilarity sqrtFn logFn a2 a1 := by
  refine ⟨titleSimilarity_comm _ _, contentSimilarity_comm _ _ _,
    tfidfSimilarityText_comm _ _ _ _, ?_⟩
  unfold calculateSimilarity
  dsimp only
  rw [titleSimilarity_comm, contentSimilarity_comm, tfidfSimilarityText_comm]
